import Mathlib

/-!
Shallow embedding of `src/main.rs` of the `devcontainer` tool.

The program reads a TOML configuration describing a development container
and translates the subcommands `build`, `up`, `exec`, `stop`, `down`,
`read` into invocations of the external `docker` tool.

Modelling conventions:
* Rust structs become Lean structures with the same field names.
* `HashMap` fields (`BuildConfig.args`, `DevcontainerConfig.volumes`) are
  modelled as association lists recording the iteration order the map
  happened to produce; the order is an input of the model, not a function
  of the mapping, mirroring the unspecified iteration order of a Rust
  `HashMap`.
* Spawning the external process is modelled by passing the would-be
  result of `Command::status()` as an explicit `ProcResult` argument
  (each handler spawns at most one process).
* A handler's observable behaviour is an `ExecResult`: the list of
  spawned argument vectors (program name first), the lines written to
  stdout and stderr, and the process exit code.
-/

structure ImageConfig where
  name : String
deriving Repr, DecidableEq

structure BuildConfig where
  name : String
  dockerfile : String
  context : String
  target : Option String
  args : List (String × String)
deriving Repr, DecidableEq

structure ComposeConfig where
  files : List String
  service : Option String
  workspace_folder : Option String
  shutdown_action : Option String
  override_command : Option Bool
deriving Repr, DecidableEq

structure RunConfig where
  workdir : String
  user : Option String
  run_args : List String
deriving Repr, DecidableEq

structure VolumeMount where
  host : String
  container : String
  mode : Option String
deriving Repr, DecidableEq

structure PortsConfig where
  app : List Nat
  forward : List Nat
deriving Repr, DecidableEq

structure DevcontainerConfig where
  name : String
  image : Option ImageConfig
  build : Option BuildConfig
  compose : Option ComposeConfig
  run : Option RunConfig
  ports : Option PortsConfig
  volumes : List (String × VolumeMount)
deriving Repr, DecidableEq

/-- Result of `Command::status()`: the spawn failed (`launchFailure`,
carrying the rendered io error), or the child exited (`exited`), carrying
`ExitStatus::code()` (`none` when the child was killed by a signal) and
the `Display` rendering of the status. -/
inductive ProcResult where
  | launchFailure (err : String)
  | exited (code : Option Int) (display : String)
deriving Repr, DecidableEq

/-- Observable behaviour of one invocation of the program: argument
vectors passed to spawned external processes (program name first), the
stdout lines, the stderr lines, and the exit code of the process. -/
structure ExecResult where
  spawned : List (List String)
  stdout : List String
  stderr : List String
  exit : Int
deriving Repr, DecidableEq

/-- `ExitStatus::success()`: exited with code zero. -/
def statusSuccess : ProcResult → Bool
  | .exited (some 0) _ => true
  | _ => false

/-- Rendering of `{:?}` on a `Command`: the quoted program and arguments. -/
def cmdDebug (argv : List String) : String :=
  String.intercalate " " (argv.map (fun a => "\x22" ++ a ++ "\x22"))

/-- Shared tail of every `run_*` function: echo the invocation to stdout,
run `cmd.status()`, report a launch failure or a non-success status to
stderr and exit, where `ctx` is the subcommand context of the echo line
(e.g. "devcontainer build") and `what` names the external command in the
error messages (e.g. "docker pull"). -/
def runExternal (ctx : String) (what : String) (argv : List String)
    (res : ProcResult) : ExecResult :=
  { spawned := [argv]
    stdout := [ctx ++ ": running " ++ cmdDebug argv]
    stderr :=
      match res with
      | .launchFailure e => ["Failed to execute " ++ what ++ ": " ++ e]
      | .exited c d => if c = some 0 then [] else [what ++ " failed with status: " ++ d]
    exit :=
      match res with
      | .launchFailure _ => 1
      | .exited c _ => if c = some 0 then 0 else c.getD 1 }

/-- `run_image_build`: `docker pull <image name>`. -/
def run_image_build (cfg : ImageConfig) (res : ProcResult) : ExecResult :=
  runExternal "devcontainer build" "docker pull" ["docker", "pull", cfg.name] res

/-- Argument vector of `run_docker_build` (program name first). -/
def run_docker_build_argv (cfg : BuildConfig) : List String :=
  ["docker", "build", "-f", cfg.dockerfile, "-t", cfg.name]
    ++ (match cfg.target with
        | some t => ["--target", t]
        | none => [])
    ++ cfg.args.flatMap (fun kv => ["--build-arg", kv.1 ++ "=" ++ kv.2])
    ++ [cfg.context]

/-- `run_docker_build`: `docker build -f <dockerfile> -t <name>
[--target <t>] [--build-arg k=v ...] <context>`. -/
def run_docker_build (cfg : BuildConfig) (res : ProcResult) : ExecResult :=
  runExternal "devcontainer build" "docker build" (run_docker_build_argv cfg) res

/-- `run_compose_build`: `docker compose [-f file ...] build`. -/
def run_compose_build (cfg : ComposeConfig) (res : ProcResult) : ExecResult :=
  runExternal "devcontainer build" "docker compose build"
    (["docker", "compose"] ++ cfg.files.flatMap (fun f => ["-f", f]) ++ ["build"]) res

/-- The container-kind cardinality computed at the top of `handle_build`
and `handle_up`. -/
def kind_count (cfg : DevcontainerConfig) : Nat :=
  (if cfg.image.isSome then 1 else 0) + (if cfg.build.isSome then 1 else 0)
    + (if cfg.compose.isSome then 1 else 0)

/-- `handle_build`: validate the kind cardinality, then dispatch on the
first kind present (image, then build, then compose). -/
def handle_build (_args : List String) (cfg : DevcontainerConfig)
    (res : ProcResult) : ExecResult :=
  if kind_count cfg = 0 then
    { spawned := [], stdout := []
      stderr := ["devcontainer build: no container kind specified",
        " Expected one of [image], [build], or [compose] in devcontainer.toml"]
      exit := 1 }
  else if kind_count cfg > 1 then
    { spawned := [], stdout := []
      stderr := ["devcontainer build: multiple container kinds specified",
        " Only one of [image], [build], or [compose] can be set in devcontainer.toml"]
      exit := 1 }
  else
    match cfg.image with
    | some image_cfg => run_image_build image_cfg res
    | none =>
      match cfg.build with
      | some build_cfg => run_docker_build build_cfg res
      | none =>
        match cfg.compose with
        | some compose_cfg => run_compose_build compose_cfg res
        | none => { spawned := [], stdout := [], stderr := [], exit := 0 }

/-- The image reference resolved at the top of `run_container_up`:
the image name, else the build tag name; `none` marks the
`unreachable!()` arm. -/
def resolvedImageName (cfg : DevcontainerConfig) : Option String :=
  match cfg.image with
  | some image_cfg => some image_cfg.name
  | none =>
    match cfg.build with
    | some build_cfg => some build_cfg.name
    | none => none

/-- Argument vector of `run_container_up` (program name first), given the
resolved image reference. -/
def run_container_up_argv (cfg : DevcontainerConfig) (image_name : String) :
    List String :=
  ["docker", "run", "-d", "--name", cfg.name]
    ++ (match cfg.run with
        | some run_cfg =>
          (match run_cfg.user with
           | some u => ["--user", u]
           | none => [])
            ++ ["--workdir", run_cfg.workdir]
            ++ run_cfg.run_args
        | none => [])
    ++ cfg.volumes.flatMap (fun nm =>
        ["-v", nm.2.host ++ ":" ++ nm.2.container ++ ":" ++ nm.2.mode.getD "rw"])
    ++ (match cfg.ports with
        | some ports_cfg =>
          ports_cfg.app.flatMap (fun p => ["-p", toString p ++ ":" ++ toString p])
            ++ ports_cfg.forward.flatMap (fun p => ["-p", toString p ++ ":" ++ toString p])
        | none => [])
    ++ [image_name]

/-- `run_container_up`: `docker run -d --name <name> ... <image>`; the
`none` branch of the resolved image is the `unreachable!()` panic, which
aborts with exit code 101 and spawns nothing. -/
def run_container_up (cfg : DevcontainerConfig) (res : ProcResult) : ExecResult :=
  match resolvedImageName cfg with
  | some image_name =>
    runExternal "devcontainer up" "docker run" (run_container_up_argv cfg image_name) res
  | none =>
    { spawned := [], stdout := []
      stderr := ["thread panicked: internal error: entered unreachable code"]
      exit := 101 }

/-- `run_compose_up`: `docker compose [-f file ...] up -d [service]`. -/
def run_compose_up (cfg : ComposeConfig) (res : ProcResult) : ExecResult :=
  runExternal "devcontainer up" "docker compose up"
    (["docker", "compose"] ++ cfg.files.flatMap (fun f => ["-f", f])
      ++ ["up", "-d"]
      ++ (match cfg.service with
          | some s => [s]
          | none => [])) res

/-- `handle_up`: validate the kind cardinality (with error messages that
say "devcontainer build"), then run compose up when compose is present,
else a single-container run. -/
def handle_up (_args : List String) (cfg : DevcontainerConfig)
    (res : ProcResult) : ExecResult :=
  if kind_count cfg = 0 then
    { spawned := [], stdout := []
      stderr := ["devcontainer build: no container kind specified",
        " Expected one of [image], [build], or [compose] in devcontainer.toml"]
      exit := 1 }
  else if kind_count cfg > 1 then
    { spawned := [], stdout := []
      stderr := ["devcontainer build: multiple container kinds specified",
        " Only one of [image], [build], or [compose] can be set in devcontainer.toml"]
      exit := 1 }
  else
    match cfg.compose with
    | some compose_cfg => run_compose_up compose_cfg res
    | none => run_container_up cfg res

/-- `run_container_exec`: `docker exec -it <name> (sh | args...)`. -/
def run_container_exec (args : List String) (cfg : DevcontainerConfig)
    (res : ProcResult) : ExecResult :=
  runExternal "devcontainer exec" "docker exec"
    (["docker", "exec", "-it", cfg.name]
      ++ (if args.isEmpty then ["sh"] else args)) res

/-- `run_compose_exec`: requires `[compose].service`; fails before the
echo and the spawn when it is absent. -/
def run_compose_exec (args : List String) (cfg : ComposeConfig)
    (res : ProcResult) : ExecResult :=
  match cfg.service with
  | none =>
    { spawned := [], stdout := []
      stderr := ["devcontainer exec: [compose].service is required to know which compose service to exec into"]
      exit := 1 }
  | some service =>
    runExternal "devcontainer exec" "docker exec"
      (["docker", "compose"] ++ cfg.files.flatMap (fun f => ["-f", f])
        ++ ["exec", "-it", service]
        ++ (if args.isEmpty then ["sh"] else args)) res

/-- `handle_exec`: compose branch whenever compose is present, else exec
into the single named container. No kind-cardinality validation. -/
def handle_exec (args : List String) (cfg : DevcontainerConfig)
    (res : ProcResult) : ExecResult :=
  match cfg.compose with
  | some compose_cfg => run_compose_exec args compose_cfg res
  | none => run_container_exec args cfg res

/-- `run_container_stop`: `docker stop <name>`. -/
def run_container_stop (cfg : DevcontainerConfig) (res : ProcResult) : ExecResult :=
  runExternal "devcontainer stop" "docker stop" ["docker", "stop", cfg.name] res

/-- `run_compose_stop`: `docker compose [-f file ...] stop`. -/
def run_compose_stop (cfg : ComposeConfig) (res : ProcResult) : ExecResult :=
  runExternal "devcontainer stop" "docker compose stop"
    (["docker", "compose"] ++ cfg.files.flatMap (fun f => ["-f", f]) ++ ["stop"]) res

/-- `handle_stop`: compose branch whenever compose is present, else stop
the single named container. No kind-cardinality validation. -/
def handle_stop (_args : List String) (cfg : DevcontainerConfig)
    (res : ProcResult) : ExecResult :=
  match cfg.compose with
  | some compose_cfg => run_compose_stop compose_cfg res
  | none => run_container_stop cfg res

/-- `run_container_down`: `docker rm -f <name>`. -/
def run_container_down (cfg : DevcontainerConfig) (res : ProcResult) : ExecResult :=
  runExternal "devcontainer down" "docker rm" ["docker", "rm", "-f", cfg.name] res

/-- `run_compose_down`: `docker compose [-f file ...] down`. -/
def run_compose_down (cfg : ComposeConfig) (res : ProcResult) : ExecResult :=
  runExternal "devcontainer down" "docker compose down"
    (["docker", "compose"] ++ cfg.files.flatMap (fun f => ["-f", f]) ++ ["down"]) res

/-- `handle_down`: compose branch whenever compose is present, else
force-remove the single named container. No kind-cardinality validation. -/
def handle_down (_args : List String) (cfg : DevcontainerConfig)
    (res : ProcResult) : ExecResult :=
  match cfg.compose with
  | some compose_cfg => run_compose_down compose_cfg res
  | none => run_container_down cfg res

/-- `handle_read`: pretty-print the parsed configuration; no process. -/
def handle_read (_args : List String) (cfg : DevcontainerConfig) : ExecResult :=
  { spawned := [], stdout := [reprStr cfg], stderr := [], exit := 0 }

/-- The text printed by `print_help`. -/
def helpText : String :=
  "Usage: devcontainer [COMMAND] [OPTIONS]\n\nCommands:\n    build        Build or prebuild devcontainer image(s)\n    up           Start devcontainer(s)\n    exec         Execute a command in a devcontainer\n    stop         Stop devcontainer(s)\n    down         Stop and remove devcontainer(s)\n    read         Print devcontainer config\n\nOptions:\n    -h, --help   Print this help message"

/-- `main`: `load` is the outcome of `load_config()` (the error carrying
its rendered message), `args` is `env::args()` including the program name
at index 0, `res` the behaviour of the at most one spawned process. The
config is loaded before the argument count is examined. -/
def mainFn (load : Except String DevcontainerConfig) (args : List String)
    (res : ProcResult) : ExecResult :=
  match load with
  | .error e =>
    { spawned := [], stdout := [], stderr := ["devcontainer: " ++ e], exit := 1 }
  | .ok cfg =>
    if args.length ≤ 1 then
      { spawned := [], stdout := [helpText], stderr := [], exit := 0 }
    else
      let first := args.getD 1 ""
      let rest := args.drop 2
      if first = "-h" ∨ first = "--help" ∨ first = "help" then
        { spawned := [], stdout := [helpText], stderr := [], exit := 0 }
      else if first = "build" then handle_build rest cfg res
      else if first = "up" then handle_up rest cfg res
      else if first = "exec" then handle_exec rest cfg res
      else if first = "stop" then handle_stop rest cfg res
      else if first = "down" then handle_down rest cfg res
      else if first = "read" then handle_read rest cfg
      else
        { spawned := [], stdout := []
          stderr := ["devcontainer: unknown command or option: " ++ first,
            "",
            "Run \x27devcontainer --help\x27 for more information"]
          exit := 1 }

/-! ### Concrete fixtures used by witnesses and counterexamples -/

def r0 : ProcResult := .exited (some 0) "exit status: 0"

def cfgNoKind : DevcontainerConfig :=
  ⟨"dev", none, none, none, none, none, []⟩

def cfgImageOnly : DevcontainerConfig :=
  ⟨"dev", some ⟨"ubuntu:24.04"⟩, none, none, none, none, []⟩

def cfgBuildFull : DevcontainerConfig :=
  ⟨"dev", none,
    some ⟨"devimg", "Dockerfile", ".", some "dev", [("ARG_A", "1")]⟩,
    none,
    some ⟨"/work", some "root", ["--rm"]⟩,
    some ⟨[3000], [5432]⟩,
    [("data", ⟨"/h", "/c", none⟩)]⟩

def cfgComposeNoService : DevcontainerConfig :=
  ⟨"dev", none, none, some ⟨["docker-compose.yml"], none, none, none, none⟩,
    none, none, []⟩

def cfgComposeAndImage : DevcontainerConfig :=
  ⟨"dev", some ⟨"ubuntu:24.04"⟩, none,
    some ⟨["docker-compose.yml"], some "web", none, none, none⟩,
    none, none, []⟩

/-! ### Claims -/

/-- C1: when zero or at least two of the three container kinds are set,
`build` and `up` spawn no external process and exit with code 1; when
exactly one kind is set, the validation error cannot occur and each of
them spawns exactly one external process. -/
theorem build_up_kind_validation (cfg : DevcontainerConfig)
    (args : List String) (res : ProcResult) :
    ((kind_count cfg = 0 ∨ 2 ≤ kind_count cfg) →
      (handle_build args cfg res).spawned = [] ∧
      (handle_build args cfg res).exit = 1 ∧
      (handle_up args cfg res).spawned = [] ∧
      (handle_up args cfg res).exit = 1) ∧
    (kind_count cfg = 1 →
      (handle_build args cfg res).spawned.length = 1 ∧
      (handle_up args cfg res).spawned.length = 1) := by
  cases himg : cfg.image <;> cases hbld : cfg.build <;> cases hcmp : cfg.compose <;>
    simp [handle_build, handle_up, kind_count, himg, hbld, hcmp, run_image_build,
      run_docker_build, run_compose_build, run_compose_up, run_container_up,
      resolvedImageName, runExternal]

/-- C1 witness: at a zero-kind configuration the validation failure is
observed, and at a single-kind configuration one process is spawned. -/
theorem build_up_kind_validation_witness :
    ((kind_count cfgNoKind = 0 ∨ 2 ≤ kind_count cfgNoKind) ∧
      (handle_build [] cfgNoKind r0).spawned = [] ∧
      (handle_build [] cfgNoKind r0).exit = 1 ∧
      (handle_up [] cfgNoKind r0).spawned = [] ∧
      (handle_up [] cfgNoKind r0).exit = 1) ∧
    (kind_count cfgImageOnly = 1 ∧
      (handle_build [] cfgImageOnly r0).spawned.length = 1 ∧
      (handle_up [] cfgImageOnly r0).spawned.length = 1) :=
  ⟨⟨Or.inl rfl, (build_up_kind_validation cfgNoKind [] r0).1 (Or.inl rfl)⟩,
   ⟨rfl, (build_up_kind_validation cfgImageOnly [] r0).2 rfl⟩⟩

/-- C5: `exec` on a compose configuration without a service name spawns
no external process, reports the missing-service validation error, and
exits with code 1. -/
theorem compose_exec_requires_service (cfg : DevcontainerConfig)
    (cc : ComposeConfig) (args : List String) (res : ProcResult)
    (hc : cfg.compose = some cc) (hs : cc.service = none) :
    (handle_exec args cfg res).spawned = [] ∧
    (handle_exec args cfg res).exit = 1 ∧
    (handle_exec args cfg res).stderr =
      ["devcontainer exec: [compose].service is required to know which compose service to exec into"] := by
  simp [handle_exec, hc, run_compose_exec, hs]

/-- C5 witness: the compose-without-service fixture. -/
theorem compose_exec_requires_service_witness :
    cfgComposeNoService.compose =
      some ⟨["docker-compose.yml"], none, none, none, none⟩ ∧
    (handle_exec [] cfgComposeNoService r0).spawned = [] ∧
    (handle_exec [] cfgComposeNoService r0).exit = 1 ∧
    (handle_exec [] cfgComposeNoService r0).stderr =
      ["devcontainer exec: [compose].service is required to know which compose service to exec into"] :=
  ⟨rfl, compose_exec_requires_service cfgComposeNoService
    ⟨["docker-compose.yml"], none, none, none, none⟩ [] r0 rfl rfl⟩

/-- C10: `exec`, `stop` and `down` do no kind-cardinality validation:
whenever compose is present (even together with image or build) the
compose branch runs; otherwise (even with zero kinds) they target the
single container named by the configuration. -/
theorem exec_stop_down_dispatch (cfg : DevcontainerConfig)
    (args : List String) (res : ProcResult) :
    (∀ cc, cfg.compose = some cc →
      handle_exec args cfg res = run_compose_exec args cc res ∧
      handle_stop args cfg res = run_compose_stop cc res ∧
      handle_down args cfg res = run_compose_down cc res) ∧
    (cfg.compose = none →
      (handle_exec args cfg res).spawned =
        [["docker", "exec", "-it", cfg.name]
          ++ (if args.isEmpty then ["sh"] else args)] ∧
      (handle_stop args cfg res).spawned = [["docker", "stop", cfg.name]] ∧
      (handle_down args cfg res).spawned = [["docker", "rm", "-f", cfg.name]]) := by
  constructor
  · intro cc h
    simp [handle_exec, handle_stop, handle_down, h]
  · intro h
    simp [handle_exec, handle_stop, handle_down, h, run_container_exec,
      run_container_stop, run_container_down, runExternal]

/-- C10 witness: with compose and image both set the compose branch runs,
and with zero kinds the single named container is targeted. -/
theorem exec_stop_down_dispatch_witness :
    (cfgComposeAndImage.compose =
      some ⟨["docker-compose.yml"], some "web", none, none, none⟩ ∧
      handle_exec [] cfgComposeAndImage r0 =
        run_compose_exec []
          ⟨["docker-compose.yml"], some "web", none, none, none⟩ r0 ∧
      handle_stop [] cfgComposeAndImage r0 =
        run_compose_stop
          ⟨["docker-compose.yml"], some "web", none, none, none⟩ r0 ∧
      handle_down [] cfgComposeAndImage r0 =
        run_compose_down
          ⟨["docker-compose.yml"], some "web", none, none, none⟩ r0) ∧
    (cfgNoKind.compose = none ∧
      (handle_exec [] cfgNoKind r0).spawned =
        [["docker", "exec", "-it", "dev", "sh"]] ∧
      (handle_stop [] cfgNoKind r0).spawned = [["docker", "stop", "dev"]] ∧
      (handle_down [] cfgNoKind r0).spawned =
        [["docker", "rm", "-f", "dev"]]) := by
  refine ⟨⟨rfl, (exec_stop_down_dispatch cfgComposeAndImage [] r0).1 _ rfl⟩,
    rfl, ?_⟩
  have h := (exec_stop_down_dispatch cfgNoKind [] r0).2 rfl
  simpa using h

/-- Spec-side layout of the `up` argument vector for a non-compose kind,
written from the claim: `run`, `-d`, `--name` plus the configuration's
name, then (when run parameters are present) optional `--user` plus user,
`--workdir` plus working directory, the extra run-arguments verbatim,
then one `-v host:container:mode` per volume mount (mode defaulting to
`rw`), then one `-p P:P` per app port followed by one per forward port,
and finally the resolved image reference. -/
def up_argv_spec (cfg : DevcontainerConfig) (image_ref : String) : List String :=
  ["run", "-d", "--name", cfg.name]
    ++ (match cfg.run with
        | some run_cfg =>
          (match run_cfg.user with
           | some u => ["--user", u]
           | none => [])
            ++ ["--workdir", run_cfg.workdir]
            ++ run_cfg.run_args
        | none => [])
    ++ cfg.volumes.flatMap (fun nm =>
        ["-v", nm.2.host ++ ":" ++ nm.2.container ++ ":" ++ nm.2.mode.getD "rw"])
    ++ (match cfg.ports with
        | some ports_cfg =>
          ports_cfg.app.flatMap (fun p => ["-p", toString p ++ ":" ++ toString p])
            ++ ports_cfg.forward.flatMap (fun p => ["-p", toString p ++ ":" ++ toString p])
        | none => [])
    ++ [image_ref]

/-- C2: for a single-kind image or build configuration, `up` spawns
exactly the docker invocation whose arguments follow the spec layout
`up_argv_spec`, with the image reference resolved to the image name
(image kind) or the build tag name (build kind). -/
theorem up_argv_matches_spec (cfg : DevcontainerConfig) (args : List String)
    (res : ProcResult) (h1 : kind_count cfg = 1) (h2 : cfg.compose = none) :
    (∀ ic, cfg.image = some ic →
      (handle_up args cfg res).spawned = ["docker" :: up_argv_spec cfg ic.name]) ∧
    (∀ bc, cfg.build = some bc →
      (handle_up args cfg res).spawned = ["docker" :: up_argv_spec cfg bc.name]) := by
  constructor
  · rintro ic hi
    simp [handle_up, h1, h2, run_container_up, resolvedImageName, hi,
      runExternal, run_container_up_argv, up_argv_spec]
  · rintro bc hb
    have hi : cfg.image = none := by
      cases hi : cfg.image with
      | none => rfl
      | some a => simp [kind_count, hi, hb, h2] at h1
    simp [handle_up, h1, h2, run_container_up, resolvedImageName, hi, hb,
      runExternal, run_container_up_argv, up_argv_spec]

/-- C2 witness: the full build-kind fixture and the image-only fixture. -/
theorem up_argv_matches_spec_witness :
    (kind_count cfgBuildFull = 1 ∧ cfgBuildFull.compose = none ∧
      cfgBuildFull.build =
        some ⟨"devimg", "Dockerfile", ".", some "dev", [("ARG_A", "1")]⟩ ∧
      (handle_up [] cfgBuildFull r0).spawned =
        ["docker" :: up_argv_spec cfgBuildFull "devimg"]) ∧
    (kind_count cfgImageOnly = 1 ∧ cfgImageOnly.compose = none ∧
      cfgImageOnly.image = some ⟨"ubuntu:24.04"⟩ ∧
      (handle_up [] cfgImageOnly r0).spawned =
        ["docker" :: up_argv_spec cfgImageOnly "ubuntu:24.04"]) :=
  ⟨⟨by decide, rfl, rfl,
    (up_argv_matches_spec cfgBuildFull [] r0 (by decide) rfl).2 _ rfl⟩,
   ⟨by decide, rfl, rfl,
    (up_argv_matches_spec cfgImageOnly [] r0 (by decide) rfl).1 _ rfl⟩⟩

/-- Spec-side layout of the `build` argument vector for a build kind,
written from the claim: `build`, `-f` plus the dockerfile path, `-t`
plus the target tag name, optionally `--target` plus the build-target
stage, one `--build-arg name=value` per build-arg entry, and finally the
build context path. -/
def build_argv_spec (bc : BuildConfig) : List String :=
  ["build", "-f", bc.dockerfile, "-t", bc.name]
    ++ (match bc.target with
        | some t => ["--target", t]
        | none => [])
    ++ bc.args.flatMap (fun kv => ["--build-arg", kv.1 ++ "=" ++ kv.2])
    ++ [bc.context]

/-- C3: for a single-kind build configuration, `build` spawns exactly the
docker invocation whose arguments follow the spec layout
`build_argv_spec`. -/
theorem build_argv_matches_spec (cfg : DevcontainerConfig)
    (args : List String) (res : ProcResult) (bc : BuildConfig)
    (h1 : kind_count cfg = 1) (hb : cfg.build = some bc) :
    (handle_build args cfg res).spawned = ["docker" :: build_argv_spec bc] := by
  have hi : cfg.image = none := by
    cases hi : cfg.image with
    | none => rfl
    | some a => cases hc : cfg.compose <;> simp [kind_count, hi, hb, hc] at h1
  simp [handle_build, h1, hi, hb, run_docker_build, runExternal,
    run_docker_build_argv, build_argv_spec]

/-- C3 witness: the full build-kind fixture. -/
theorem build_argv_matches_spec_witness :
    kind_count cfgBuildFull = 1 ∧
    cfgBuildFull.build =
      some ⟨"devimg", "Dockerfile", ".", some "dev", [("ARG_A", "1")]⟩ ∧
    (handle_build [] cfgBuildFull r0).spawned =
      ["docker" ::
        build_argv_spec ⟨"devimg", "Dockerfile", ".", some "dev", [("ARG_A", "1")]⟩] :=
  ⟨by decide, rfl, build_argv_matches_spec cfgBuildFull [] r0 _ (by decide) rfl⟩

/-- C6: for a single-kind non-compose configuration with a ports section,
the spawned `up` argument vector contains, as a contiguous segment, one
`-p P:P` mapping per app port in input order followed by one per forward
port in input order. -/
theorem port_mappings (cfg : DevcontainerConfig) (pc : PortsConfig)
    (args : List String) (res : ProcResult) (h1 : kind_count cfg = 1)
    (h2 : cfg.compose = none) (hp : cfg.ports = some pc) :
    ∃ pre post,
      (handle_up args cfg res).spawned =
        [pre ++ (pc.app ++ pc.forward).flatMap
            (fun p => ["-p", toString p ++ ":" ++ toString p]) ++ post] := by
  obtain ⟨ref, href⟩ : ∃ r, resolvedImageName cfg = some r := by
    cases hi : cfg.image with
    | some a => exact ⟨a.name, by simp [resolvedImageName, hi]⟩
    | none =>
      cases hb : cfg.build with
      | some b => exact ⟨b.name, by simp [resolvedImageName, hi, hb]⟩
      | none => simp [kind_count, hi, hb, h2] at h1
  refine ⟨["docker", "run", "-d", "--name", cfg.name]
      ++ (match cfg.run with
          | some run_cfg =>
            (match run_cfg.user with
             | some u => ["--user", u]
             | none => [])
              ++ ["--workdir", run_cfg.workdir]
              ++ run_cfg.run_args
          | none => [])
      ++ cfg.volumes.flatMap (fun nm =>
          ["-v", nm.2.host ++ ":" ++ nm.2.container ++ ":" ++ nm.2.mode.getD "rw"]),
    [ref], ?_⟩
  simp [handle_up, h1, h2, run_container_up, href, runExternal,
    run_container_up_argv, hp, List.flatMap_append, List.append_assoc]

/-- C6 witness: the full build-kind fixture with app port 3000 and
forward port 5432. -/
theorem port_mappings_witness :
    kind_count cfgBuildFull = 1 ∧ cfgBuildFull.compose = none ∧
    cfgBuildFull.ports = some ⟨[3000], [5432]⟩ ∧
    ∃ pre post,
      (handle_up [] cfgBuildFull r0).spawned =
        [pre ++ ([3000, 5432] : List Nat).flatMap
            (fun p => ["-p", toString p ++ ":" ++ toString p]) ++ post] :=
  ⟨by decide, rfl, rfl,
    port_mappings cfgBuildFull ⟨[3000], [5432]⟩ [] r0 (by decide) rfl rfl⟩

/-- The exit-code propagation contract: whenever a process was spawned,
a child exit with non-zero code N makes the program exit with N, a child
killed without a code makes it exit with 1, and a spawn failure makes it
exit with 1. -/
def propagatesStatus (r : ExecResult) (res : ProcResult) : Prop :=
  r.spawned ≠ [] →
    (∀ n d, res = .exited (some n) d → n ≠ 0 → r.exit = n) ∧
    (∀ d, res = .exited none d → r.exit = 1) ∧
    (∀ e, res = .launchFailure e → r.exit = 1)

theorem runExternal_propagatesStatus (ctx what : String) (argv : List String)
    (res : ProcResult) : propagatesStatus (runExternal ctx what argv res) res := by
  intro _
  refine ⟨?_, ?_, ?_⟩
  · rintro n d rfl hn
    simp [runExternal, hn]
  · rintro d rfl
    simp [runExternal]
  · rintro e rfl
    simp [runExternal]

/-- C4: for `build`, `up`, `exec`, `stop` and `down`, whenever the
external tool was invoked, a non-zero child exit code is propagated as
the program's exit code (1 when no code is available), and a launch
failure exits with 1. -/
theorem exit_code_propagation (cfg : DevcontainerConfig)
    (args : List String) (res : ProcResult) :
    propagatesStatus (handle_build args cfg res) res ∧
    propagatesStatus (handle_up args cfg res) res ∧
    propagatesStatus (handle_exec args cfg res) res ∧
    propagatesStatus (handle_stop args cfg res) res ∧
    propagatesStatus (handle_down args cfg res) res := by
  refine ⟨?_, ?_, ?_, ?_, ?_⟩
  · unfold handle_build run_image_build run_docker_build run_compose_build
    repeat' split
    all_goals first
      | exact fun h => absurd rfl h
      | apply runExternal_propagatesStatus
  · unfold handle_up run_compose_up run_container_up
    repeat' split
    all_goals first
      | exact fun h => absurd rfl h
      | apply runExternal_propagatesStatus
  · unfold handle_exec run_compose_exec run_container_exec
    repeat' split
    all_goals first
      | exact fun h => absurd rfl h
      | apply runExternal_propagatesStatus
  · unfold handle_stop run_compose_stop run_container_stop
    repeat' split
    all_goals first
      | exact fun h => absurd rfl h
      | apply runExternal_propagatesStatus
  · unfold handle_down run_compose_down run_container_down
    repeat' split
    all_goals first
      | exact fun h => absurd rfl h
      | apply runExternal_propagatesStatus

/-- C4 witness: on the image-only fixture, a child exiting with code 3
makes each subcommand exit with 3. -/
theorem exit_code_propagation_witness :
    ((handle_build [] cfgImageOnly (.exited (some 3) "exit status: 3")).spawned ≠ [] ∧
      (3 : Int) ≠ 0 ∧
      (handle_build [] cfgImageOnly (.exited (some 3) "exit status: 3")).exit = 3) ∧
    ((handle_stop [] cfgImageOnly (.exited (some 3) "exit status: 3")).spawned ≠ [] ∧
      (handle_stop [] cfgImageOnly (.exited (some 3) "exit status: 3")).exit = 3) := by
  have hb := (exit_code_propagation cfgImageOnly []
    (.exited (some 3) "exit status: 3")).1 (by decide)
  have hs := (exit_code_propagation cfgImageOnly []
    (.exited (some 3) "exit status: 3")).2.2.2.1 (by decide)
  exact ⟨⟨by decide, by decide, hb.1 3 "exit status: 3" rfl (by decide)⟩,
    ⟨by decide, hs.1 3 "exit status: 3" rfl (by decide)⟩⟩

/-- Two enumerations of the same two-entry build-args mapping, in the two
possible iteration orders. -/
def bcOrderA : BuildConfig :=
  ⟨"tag", "Dockerfile", ".", none, [("ARG_A", "1"), ("ARG_B", "2")]⟩

def bcOrderB : BuildConfig :=
  ⟨"tag", "Dockerfile", ".", none, [("ARG_B", "2"), ("ARG_A", "1")]⟩

/-- C7 counterexample: two runs on the same parsed configuration — equal
in every field, with the build-args mapping holding the same entries but
enumerated in the two iteration orders a `HashMap` may produce — build
different argument vectors, so the vector is not a deterministic function
of the configuration's fields alone. -/
theorem build_argv_not_order_independent :
    bcOrderA.name = bcOrderB.name ∧
    bcOrderA.dockerfile = bcOrderB.dockerfile ∧
    bcOrderA.context = bcOrderB.context ∧
    bcOrderA.target = bcOrderB.target ∧
    bcOrderA.args.Perm bcOrderB.args ∧
    run_docker_build_argv bcOrderA ≠ run_docker_build_argv bcOrderB := by
  refine ⟨rfl, rfl, rfl, rfl, List.Perm.swap _ _ _, ?_⟩
  decide

/-- C7 amended: the argument vector is a deterministic function of the
configuration's fields together with the iteration order of its mappings;
for two enumerations of the same mappings the vectors agree up to a
permutation of the mapping-derived arguments, and are equal whenever the
enumeration orders coincide. -/
theorem argv_deterministic_up_to_mapping_order
    (b1 b2 : BuildConfig) (c1 c2 : DevcontainerConfig) (ref : String)
    (hn : b1.name = b2.name) (hd : b1.dockerfile = b2.dockerfile)
    (hc : b1.context = b2.context) (ht : b1.target = b2.target)
    (ha : b1.args.Perm b2.args)
    (hcn : c1.name = c2.name) (hcr : c1.run = c2.run)
    (hcp : c1.ports = c2.ports) (hcv : c1.volumes.Perm c2.volumes) :
    (run_docker_build_argv b1).Perm (run_docker_build_argv b2) ∧
    (run_container_up_argv c1 ref).Perm (run_container_up_argv c2 ref) ∧
    (b1.args = b2.args → run_docker_build_argv b1 = run_docker_build_argv b2) ∧
    (c1.volumes = c2.volumes →
      run_container_up_argv c1 ref = run_container_up_argv c2 ref) := by
  refine ⟨?_, ?_, ?_, ?_⟩
  · unfold run_docker_build_argv
    rw [hn, hd, hc, ht]
    exact (((ha.flatMap_right _).append_left _).append_right _)
  · unfold run_container_up_argv
    rw [hcn, hcr, hcp]
    exact ((((hcv.flatMap_right _).append_left _).append_right _).append_right _)
  · intro he
    unfold run_docker_build_argv
    rw [hn, hd, hc, ht, he]
  · intro he
    unfold run_container_up_argv
    rw [hcn, hcr, hcp, he]

/-- C7 amended witness: the two enumerations of the same build-args
mapping give permuted vectors. -/
theorem argv_deterministic_up_to_mapping_order_witness :
    (bcOrderA.name = bcOrderB.name ∧ bcOrderA.dockerfile = bcOrderB.dockerfile ∧
      bcOrderA.context = bcOrderB.context ∧ bcOrderA.target = bcOrderB.target ∧
      bcOrderA.args.Perm bcOrderB.args) ∧
    (run_docker_build_argv bcOrderA).Perm (run_docker_build_argv bcOrderB) :=
  ⟨⟨rfl, rfl, rfl, rfl, List.Perm.swap _ _ _⟩,
    (argv_deterministic_up_to_mapping_order bcOrderA bcOrderB
      cfgNoKind cfgNoKind "r" rfl rfl rfl rfl (List.Perm.swap _ _ _)
      rfl rfl rfl (List.Perm.refl _)).1⟩

/-- C8: evaluating the failing input — the `up` subcommand on a zero-kind
configuration — shows the validation error is prefixed with the `build`
subcommand context ("devcontainer build:"), not the `up` context, before
exiting with code 1. -/
theorem up_validation_error_prefixed_build :
    (handle_up [] cfgNoKind r0).stderr =
      ["devcontainer build: no container kind specified",
        " Expected one of [image], [build], or [compose] in devcontainer.toml"] ∧
    (handle_up [] cfgNoKind r0).exit = 1 := ⟨rfl, rfl⟩

/-- C9 counterexample: an invocation with no command-line arguments (only
the program name in argv) whose configuration load fails exits with code
1 and prints no help text. -/
theorem no_args_help_counterexample :
    (mainFn (.error "Failed to read .devcontainer/devcontainer.toml: No such file or directory")
        ["devcontainer"] r0).exit = 1 ∧
    (mainFn (.error "Failed to read .devcontainer/devcontainer.toml: No such file or directory")
        ["devcontainer"] r0).stdout = [] := ⟨rfl, rfl⟩

/-- C9 amended: when the configuration loads successfully, an invocation
with no command-line arguments prints the help text and exits with code
0; when the load fails, the program reports the load error and exits with
code 1 without printing help, whatever the arguments. -/
theorem no_args_prints_help (cfg : DevcontainerConfig) (args : List String)
    (res : ProcResult) (e : String) :
    (args.length ≤ 1 →
      mainFn (.ok cfg) args res = ⟨[], [helpText], [], 0⟩) ∧
    mainFn (.error e) args res = ⟨[], [], ["devcontainer: " ++ e], 1⟩ := by
  constructor
  · intro h
    simp [mainFn, h]
  · rfl

/-- C9 amended witness: a successful load with only the program name in
argv prints the help and exits 0. -/
theorem no_args_prints_help_witness :
    ([("devcontainer" : String)].length ≤ 1) ∧
    mainFn (.ok cfgImageOnly) ["devcontainer"] r0 = ⟨[], [helpText], [], 0⟩ :=
  ⟨by decide,
    (no_args_prints_help cfgImageOnly ["devcontainer"] r0 "e").1 (by decide)⟩
